import Mathlib

/-!
Shallow embedding of the per-message execution engine of the `rejected`
consumer library (`src/rejected/consumer.py`).

Python dictionaries that the code reads and writes by string key are
embedded as association lists `List (String × V)` with `dget` / `dset`
(lookup and insert-or-overwrite, preserving insertion order, like a
Python `dict`).  AMQP header values that the code stores or compares are
embedded by the closed type `HVal` (integers and strings, the two value
shapes exercised by the republish/retry logic).  Message properties are
a record mirroring `rejected.data.Properties` restricted to the fields
the embedded code paths read.
-/

namespace Rejected

/-- Lookup of a key in a Python-dict-like association list. -/
def dget {V : Type} : List (String × V) → String → Option V
  | [], _ => none
  | (k', v) :: rest, k => if k' = k then some v else dget rest k

/-- Insert-or-overwrite of a key in a Python-dict-like association list,
preserving insertion order as a Python `dict` does. -/
def dset {V : Type} : List (String × V) → String → V → List (String × V)
  | [], k, v => [(k, v)]
  | (k', v') :: rest, k, v =>
      if k' = k then (k', v) :: rest else (k', v') :: dset rest k v

theorem dget_dset_self {V : Type} (d : List (String × V)) (k : String) (v : V) :
    dget (dset d k v) k = some v := by
  induction d with
  | nil => simp [dget, dset]
  | cons hd tl ih =>
      obtain ⟨k', v'⟩ := hd
      by_cases h : k' = k <;> simp [dget, dset, h, ih]

theorem dget_dset_ne {V : Type} (d : List (String × V)) (k k' : String) (v : V)
    (h : k' ≠ k) : dget (dset d k' v) k = dget d k := by
  induction d with
  | nil => simp [dget, dset, h]
  | cons hd tl ih =>
      obtain ⟨k'', v''⟩ := hd
      by_cases h2 : k'' = k' <;> simp [dget, dset, h2, ih]
      subst h2
      simp [h, dget]

/-- AMQP header value as manipulated by the republish logic: an integer
counter or a string diagnostic.  (`'x' + 1` raises `TypeError` in Python;
the embedding of `_republish_processing_error` reflects that catch.) -/
inductive HVal : Type
  | int (n : Int)
  | str (s : String)
  deriving DecidableEq

/-- The fields of `rejected.data.Properties` read by the embedded paths. -/
structure Properties : Type where
  appId : Option String := none
  contentEncoding : Option String := none
  contentType : Option String := none
  correlationId : Option String := none
  headers : Option (List (String × HVal)) := none
  messageId : Option String := none
  replyTo : Option String := none
  timestamp : Option Int := none
  msgType : Option String := none
  userId : Option String := none
  deriving DecidableEq

/-- The inbound delivery (`rejected.data.Message`) restricted to the
fields the embedded code paths read. -/
structure Message : Type where
  connection : String := ""
  exchange : String := ""
  routingKey : String := ""
  body : List Nat := []
  redelivered : Bool := false
  properties : Properties := {}
  deriving DecidableEq

/-- Embedding of `self.headers`: `self._message.properties.headers or dict()`,
and of the republish guard `if 'headers' not in properties or not
properties['headers']: properties['headers'] = {}` (a `None` or empty
headers dict becomes an empty dict). -/
def headersOrEmpty (p : Properties) : List (String × HVal) :=
  match p.headers with
  | none => []
  | some h => h

/-- The module constant `_PROCESSING_EXCEPTIONS = 'X-Processing-Exceptions'`. -/
def processingExceptionsKey : String := "X-Processing-Exceptions"
/-- A `basic_publish` call as issued by the republish helpers. -/
structure Published : Type where
  exchange : String
  routingKey : String
  body : List Nat
  properties : Properties
  deriving DecidableEq

/-- The header mutation performed by `Consumer._republish_dropped_message`:
the four `X-`-prefixed diagnostic headers are added to the (possibly
emptied) original headers dict. -/
def droppedHeaders (name reason nowIso origExchange : String)
    (h : List (String × HVal)) : List (String × HVal) :=
  dset (dset (dset (dset h
    "X-Dropped-By" (HVal.str name))
    "X-Dropped-Reason" (HVal.str reason))
    "X-Dropped-Timestamp" (HVal.str nowIso))
    "X-Original-Exchange" (HVal.str origExchange)

/-- Embedding of `Consumer._republish_dropped_message`: copy the original
properties, add the four diagnostic headers, publish the original body to
the drop exchange with the original routing key.  `name` is `self.name`,
`nowIso` the `datetime.datetime.utcnow().isoformat()` string. -/
def republishDroppedMessage (name dropExchange nowIso : String)
    (msg : Message) (reason : String) : Published :=
  let h := droppedHeaders name reason nowIso msg.exchange
    (headersOrEmpty msg.properties)
  { exchange := dropExchange
    routingKey := msg.routingKey
    body := msg.body
    properties := { msg.properties with headers := some h } }

/-- The first header step of `_republish_processing_error`:
`if error: properties['headers']['X-Processing-Exception'] = error`
(a falsy, i.e. empty, error tag is skipped). -/
def errTagHeaders (errTag : String) (h : List (String × HVal)) :
    List (String × HVal) :=
  if errTag = "" then h else dset h "X-Processing-Exception" (HVal.str errTag)

/-- The counter step of `_republish_processing_error`: initialize the
`X-Processing-Exceptions` counter to 1 when absent, increment it when it
holds an integer, and reset it to 1 when `+= 1` raises `TypeError`
(a non-integer, e.g. string, value). -/
def processingErrorHeaders (errTag : String) (h : List (String × HVal)) :
    List (String × HVal) :=
  match dget (errTagHeaders errTag h) processingExceptionsKey with
  | none =>
      dset (errTagHeaders errTag h) processingExceptionsKey (HVal.int 1)
  | some (HVal.int n) =>
      dset (errTagHeaders errTag h) processingExceptionsKey (HVal.int (n + 1))
  | some (HVal.str _) =>
      dset (errTagHeaders errTag h) processingExceptionsKey (HVal.int 1)

/-- Embedding of `Consumer._republish_processing_error`: copy the original
properties, apply the two header steps, publish the original body to the
error exchange with the original routing key. -/
def republishProcessingError (errorExchange : String) (msg : Message)
    (errTag : String) : Published :=
  let h := processingErrorHeaders errTag (headersOrEmpty msg.properties)
  { exchange := errorExchange
    routingKey := msg.routingKey
    body := msg.body
    properties := { msg.properties with headers := some h } }

/-- True when a lookup produced an integer-valued header. -/
def isIntHeader : Option HVal → Bool
  | some (HVal.int _) => true
  | _ => false

theorem dget_errTagHeaders (errTag : String) (h : List (String × HVal)) :
    dget (errTagHeaders errTag h) processingExceptionsKey
      = dget h processingExceptionsKey := by
  unfold errTagHeaders
  split
  · rfl
  · exact dget_dset_ne _ _ _ _ (by decide)

theorem dget_droppedHeaders_by (name reason nowIso orig : String)
    (h : List (String × HVal)) :
    dget (droppedHeaders name reason nowIso orig h) "X-Dropped-By"
      = some (HVal.str name) := by
  unfold droppedHeaders
  rw [dget_dset_ne _ _ _ _ (by decide), dget_dset_ne _ _ _ _ (by decide),
    dget_dset_ne _ _ _ _ (by decide), dget_dset_self]

theorem dget_droppedHeaders_reason (name reason nowIso orig : String)
    (h : List (String × HVal)) :
    dget (droppedHeaders name reason nowIso orig h) "X-Dropped-Reason"
      = some (HVal.str reason) := by
  unfold droppedHeaders
  rw [dget_dset_ne _ _ _ _ (by decide), dget_dset_ne _ _ _ _ (by decide),
    dget_dset_self]

theorem dget_droppedHeaders_timestamp (name reason nowIso orig : String)
    (h : List (String × HVal)) :
    dget (droppedHeaders name reason nowIso orig h) "X-Dropped-Timestamp"
      = some (HVal.str nowIso) := by
  unfold droppedHeaders
  rw [dget_dset_ne _ _ _ _ (by decide), dget_dset_self]

theorem dget_droppedHeaders_orig (name reason nowIso orig : String)
    (h : List (String × HVal)) :
    dget (droppedHeaders name reason nowIso orig h) "X-Original-Exchange"
      = some (HVal.str orig) := by
  unfold droppedHeaders
  rw [dget_dset_self]

theorem dget_processingErrorHeaders (errTag : String)
    (h : List (String × HVal)) :
    dget (processingErrorHeaders errTag h) processingExceptionsKey
      = some (match dget h processingExceptionsKey with
              | some (HVal.int n) => HVal.int (n + 1)
              | _ => HVal.int 1) := by
  unfold processingErrorHeaders
  rw [dget_errTagHeaders]
  cases hm : dget h processingExceptionsKey with
  | none => simp [dget_dset_self]
  | some v => cases v <;> simp [dget_dset_self]

/-- C2: counterexample.  The source stores every diagnostic and counter
header under an `X-`-prefixed key (`_PROCESSING_EXCEPTIONS =
'X-Processing-Exceptions'`, `'X-Dropped-By'`, ...), so after a concrete
drop republish the claimed key `Dropped-By` is absent (while
`X-Dropped-By` is present), and after a concrete processing-error
republish the claimed counter key `Processing-Exceptions` is absent
(while `X-Processing-Exceptions` holds the integer counter). -/
theorem C2_counterexample :
    dget (headersOrEmpty (republishDroppedMessage "ExampleConsumer" "drop"
        "2026-10-12T00:00:00" { exchange := "orders", routingKey := "rk" }
        "invalid type").properties) "Dropped-By" = none ∧
    dget (headersOrEmpty (republishDroppedMessage "ExampleConsumer" "drop"
        "2026-10-12T00:00:00" { exchange := "orders", routingKey := "rk" }
        "invalid type").properties) "X-Dropped-By"
      = some (HVal.str "ExampleConsumer") ∧
    dget (headersOrEmpty (republishProcessingError "errors"
        { exchange := "orders", routingKey := "rk" } "boom").properties)
        "Processing-Exceptions" = none ∧
    dget (headersOrEmpty (republishProcessingError "errors"
        { exchange := "orders", routingKey := "rk" } "boom").properties)
        "X-Processing-Exceptions" = some (HVal.int 1) := by
  decide

/-- C2 (amended): every republish writes its headers under the
`X-`-prefixed names of the implemented wire contract: the integer retry
counter is stored under `X-Processing-Exceptions`, and a drop republish
adds `X-Dropped-By` (the consumer name), `X-Dropped-Reason`,
`X-Dropped-Timestamp` (the UTC ISO-8601 string), and
`X-Original-Exchange` (the source exchange), publishing the original body
verbatim to the drop exchange with the original routing key. -/
theorem C2_amended (name dropExchange nowIso reason errorExchange errTag :
    String) (msg : Message) :
    (republishDroppedMessage name dropExchange nowIso msg reason).exchange
        = dropExchange ∧
    (republishDroppedMessage name dropExchange nowIso msg reason).routingKey
        = msg.routingKey ∧
    (republishDroppedMessage name dropExchange nowIso msg reason).body
        = msg.body ∧
    dget (headersOrEmpty (republishDroppedMessage name dropExchange nowIso
        msg reason).properties) "X-Dropped-By" = some (HVal.str name) ∧
    dget (headersOrEmpty (republishDroppedMessage name dropExchange nowIso
        msg reason).properties) "X-Dropped-Reason" = some (HVal.str reason) ∧
    dget (headersOrEmpty (republishDroppedMessage name dropExchange nowIso
        msg reason).properties) "X-Dropped-Timestamp"
      = some (HVal.str nowIso) ∧
    dget (headersOrEmpty (republishDroppedMessage name dropExchange nowIso
        msg reason).properties) "X-Original-Exchange"
      = some (HVal.str msg.exchange) ∧
    (republishProcessingError errorExchange msg errTag).exchange
        = errorExchange ∧
    (republishProcessingError errorExchange msg errTag).routingKey
        = msg.routingKey ∧
    (republishProcessingError errorExchange msg errTag).body = msg.body ∧
    isIntHeader (dget (headersOrEmpty (republishProcessingError errorExchange
        msg errTag).properties) processingExceptionsKey) = true := by
  refine ⟨rfl, rfl, rfl, ?_, ?_, ?_, ?_, rfl, rfl, rfl, ?_⟩
  · exact dget_droppedHeaders_by _ _ _ _ _
  · exact dget_droppedHeaders_reason _ _ _ _ _
  · exact dget_droppedHeaders_timestamp _ _ _ _ _
  · exact dget_droppedHeaders_orig _ _ _ _ _
  · show isIntHeader (dget (processingErrorHeaders errTag
      (headersOrEmpty msg.properties)) processingExceptionsKey) = true
    rw [dget_processingErrorHeaders]
    cases hm : dget (headersOrEmpty msg.properties) processingExceptionsKey
      with
    | none => rfl
    | some v => cases v <;> rfl

/-- C6: on a processing-error republish the retry-counter header
`X-Processing-Exceptions` is incremented by one when it holds an integer,
initialized to 1 when absent, and reset to 1 when the existing value is
not an integer (the `TypeError` branch of the source). -/
theorem C6_retry_counter (errorExchange errTag : String) (msg : Message)
    (n : Int) (s : String) :
    (dget (headersOrEmpty msg.properties) processingExceptionsKey
        = some (HVal.int n) →
      dget (headersOrEmpty (republishProcessingError errorExchange msg
          errTag).properties) processingExceptionsKey
        = some (HVal.int (n + 1))) ∧
    (dget (headersOrEmpty msg.properties) processingExceptionsKey = none →
      dget (headersOrEmpty (republishProcessingError errorExchange msg
          errTag).properties) processingExceptionsKey
        = some (HVal.int 1)) ∧
    (dget (headersOrEmpty msg.properties) processingExceptionsKey
        = some (HVal.str s) →
      dget (headersOrEmpty (republishProcessingError errorExchange msg
          errTag).properties) processingExceptionsKey
        = some (HVal.int 1)) := by
  refine ⟨fun hc => ?_, fun hc => ?_, fun hc => ?_⟩ <;>
    · show dget (processingErrorHeaders errTag
        (headersOrEmpty msg.properties)) processingExceptionsKey = _
      rw [dget_processingErrorHeaders, hc]

/-- The concrete message used to instantiate the C6 theorem: its retry
counter already holds the integer 3. -/
def msgC6 : Message :=
  { exchange := "orders", routingKey := "rk",
    properties := { headers := some [(processingExceptionsKey, HVal.int 3)] } }

/-- C6 witness: a counter of 3 becomes 4, instantiating the theorem at a
concrete message. -/
theorem C6_witness :
    dget (headersOrEmpty (republishProcessingError "errors" msgC6
        "boom").properties) processingExceptionsKey = some (HVal.int 4) :=
  (C6_retry_counter "errors" "boom" msgC6 3 "").1 (by decide)

/-!
Embedding of `Consumer.execute` (consumer.py 864-1010).

The per-message instrumentation (message-age duration, correlation-id
resolution, sentry context, measurement tags) does not influence the
control flow and is elided.  User `prepare` / `process` callbacks are
embedded by their observable behaviour: how many times they call
`self.finish()` and whether they raise (`UserStep`); a coroutine
suspension point changes nothing in this sequential embedding since the
engine waits for each future before continuing.  The outcome constants
mirror `rejected.data`.
-/

/-- The outcome constants of `rejected.data` returned by `execute`. -/
inductive Outcome : Type
  | MESSAGE_ACK
  | MESSAGE_DROP
  | MESSAGE_EXCEPTION
  | CONFIGURATION_EXCEPTION
  | CONSUMER_EXCEPTION
  | PROCESSING_EXCEPTION
  | RABBITMQ_EXCEPTION
  | UNHANDLED_EXCEPTION
  deriving DecidableEq

/-- The closed taxonomy of Python `Exception` values arising in
`execute`, as distinguished by its `except` clauses:
`errors.RabbitMQException`, the `RejectedException` subclasses,
`NotImplementedError`, `TypeError` (raised by the poison-check
comparison on a non-integer counter, and an ordinary `Exception`
subclass when raised inside user code), and any other `Exception`. -/
inductive PyExc : Type
  | rabbitMQError
  | configurationError (metric : Option String)
  | consumerError (metric : Option String)
  | messageError (metric : Option String)
  | processingError (metric : Option String)
  | notImplementedError
  | typeError
  | otherError
  deriving DecidableEq

/-- Observable events of one `execute` run, in order: the user callbacks
starting, and the republish helpers firing. -/
inductive Event : Type
  | prepareRun
  | processRun
  | republishDroppedEvt
  | republishErrorEvt
  deriving DecidableEq

/-- Observable behaviour of one user callback (`prepare` or `process`):
how many times it calls `self.finish()`, then whether it raises. -/
structure UserStep : Type where
  finishCalls : Nat := 0
  raises : Option PyExc := none
  deriving DecidableEq

/-- Result of one `execute` run: the returned outcome, the number of
times the finish hook (`self.finish()` reaching `on_finish`) effectively
ran, and the event trace. -/
structure ExecResult : Type where
  outcome : Outcome
  finishCount : Nat
  trace : List Event
  deriving DecidableEq

/-- The consumer configuration read by `execute`, mirroring the
constructor attributes `_message_type`, `_drop_invalid`, `_drop_exchange`
and `_error_max_retry`. -/
inductive MsgTypeSpec : Type
  | one (s : String)
  | many (l : List String)
  deriving DecidableEq

structure ExecCfg : Type where
  messageTypeCfg : Option MsgTypeSpec := none
  dropInvalid : Bool := false
  dropExchange : Option String := none
  errorMaxRetry : Option Int := none
  deriving DecidableEq

/-- Python truthiness of an optional string (`None` and `''` are falsy). -/
def strOptTruthy : Option String → Bool
  | some s => !s.isEmpty
  | none => false

/-- The message-type filter of `execute` (consumer.py 904-918):
`if self._message_type:` (a falsy value skips the check), then membership
for a list/tuple/set or equality for a single value against
`self.message_type`. -/
def typeRejected (cfg : ExecCfg) (msg : Message) : Bool :=
  match cfg.messageTypeCfg with
  | none => false
  | some (MsgTypeSpec.one s) =>
      if s.isEmpty then false else !(msg.properties.msgType == some s)
  | some (MsgTypeSpec.many l) =>
      if l.isEmpty then false
      else match msg.properties.msgType with
        | some t => !(l.contains t)
        | none => true

/-- The fires/passes outcome of the poison-message comparison
(consumer.py 921-929) for an integer-valued counter:
`if self._error_max_retry and _PROCESSING_EXCEPTIONS in self.headers:`
then `if self.headers[_PROCESSING_EXCEPTIONS] >= self._error_max_retry:`.
The comparison has a third outcome the source can take: a present but
non-integer (string-valued) counter makes `str >= int` raise `TypeError`
under Python 3; that outcome is modeled by `poisonCheckRaises` and
`executeFull` below, and this boolean is only consulted on inputs where
the comparison does not raise. -/
def poisonRejected (cfg : ExecCfg) (msg : Message) : Bool :=
  match cfg.errorMaxRetry with
  | none => false
  | some m =>
      if m = 0 then false
      else
        match dget (headersOrEmpty msg.properties) processingExceptionsKey with
        | some (HVal.int c) => decide (m ≤ c)
        | _ => false

/-- True exactly when the poison-check comparison at consumer.py 922
raises `TypeError` under Python 3: a configured (truthy) maximum-retry
threshold together with a present, non-integer (string-valued)
`X-Processing-Exceptions` header.  The comparison runs before the `try`
block, so the raised `TypeError` escapes `execute` with no Outcome and
no finish.  (Under Python 2 the str-vs-int comparison is instead truthy
and the message is dropped; the embedding targets the Python 3
semantics of the source's `_PYTHON3` paths.) -/
def poisonCheckRaises (cfg : ExecCfg) (msg : Message) : Bool :=
  match cfg.errorMaxRetry with
  | none => false
  | some m =>
      if m = 0 then false
      else
        match dget (headersOrEmpty msg.properties) processingExceptionsKey with
        | some (HVal.str _) => true
        | _ => false

/-- The republish performed by the two drop paths: only when a drop
exchange is configured (`if self._drop_exchange:`). -/
def dropTrace (cfg : ExecCfg) : List Event :=
  if strOptTruthy cfg.dropExchange then [Event.republishDroppedEvt] else []

/-- One guarded `self.finish()` call (consumer.py 568-579): a no-op when
already finished, otherwise it sets the flag and runs `on_finish` once.
State is (finished flag, number of effective finish-hook runs). -/
def applyFinish : Bool × Nat → Bool × Nat
  | (true, n) => (true, n)
  | (false, n) => (true, n + 1)

/-- `k` successive guarded `self.finish()` calls. -/
def applyFinishN : Nat → Bool × Nat → Bool × Nat
  | 0, s => s
  | k + 1, s => applyFinishN k (applyFinish s)

/-- One `except` clause of `execute`: which exceptions it matches, the
outcome its handler returns, and the side events of the handler body
(only the `ProcessingException` handler republishes). -/
structure ExceptClause : Type where
  matchesExc : PyExc → Bool
  outcome : Outcome
  events : List Event

/-- First-match dispatch over the `except` clauses; when no clause
matches, the exception propagates. -/
def runClauses : List ExceptClause → PyExc → Except PyExc (Outcome × List Event)
  | [], e => Except.error e
  | c :: rest, e =>
      if c.matchesExc e then Except.ok (c.outcome, c.events)
      else runClauses rest e

/-- The `except` clauses of `execute` in source order (consumer.py
942-999): `RabbitMQException`, `ConfigurationException`,
`ConsumerException`, `MessageException`, `ProcessingException`,
`NotImplementedError`, then the bare `Exception` catch-all.  All four
`RejectedException` subclasses and `NotImplementedError` are `Exception`
subclasses, so the catch-all matches every `PyExc`. -/
def exceptClauses : List ExceptClause :=
  [ { matchesExc := fun e => match e with
        | PyExc.rabbitMQError => true
        | _ => false,
      outcome := Outcome.RABBITMQ_EXCEPTION, events := [] },
    { matchesExc := fun e => match e with
        | PyExc.configurationError _ => true
        | _ => false,
      outcome := Outcome.CONFIGURATION_EXCEPTION, events := [] },
    { matchesExc := fun e => match e with
        | PyExc.consumerError _ => true
        | _ => false,
      outcome := Outcome.CONSUMER_EXCEPTION, events := [] },
    { matchesExc := fun e => match e with
        | PyExc.messageError _ => true
        | _ => false,
      outcome := Outcome.MESSAGE_EXCEPTION, events := [] },
    { matchesExc := fun e => match e with
        | PyExc.processingError _ => true
        | _ => false,
      outcome := Outcome.PROCESSING_EXCEPTION,
      events := [Event.republishErrorEvt] },
    { matchesExc := fun e => match e with
        | PyExc.notImplementedError => true
        | _ => false,
      outcome := Outcome.UNHANDLED_EXCEPTION, events := [] },
    { matchesExc := fun _ => true,
      outcome := Outcome.UNHANDLED_EXCEPTION, events := [] } ]

/-- Handler dispatch followed by the `finally:` block (`if not
self._finished: self.finish()`).  An unmatched exception would propagate
past the `finally`. -/
def handleWithFinally (e : PyExc) (s : Bool × Nat) (t : List Event) :
    Except PyExc ExecResult :=
  match runClauses exceptClauses e with
  | Except.ok (o, ev) =>
      Except.ok { outcome := o, finishCount := (applyFinish s).2,
                  trace := t ++ ev }
  | Except.error e2 => Except.error e2

/-- Embedding of `Consumer.execute` (consumer.py 864-1010) on inputs
where the poison-check comparison does not raise (`executeFull` below is
the full embedding including that error path).  The two filter paths
return before the `try` block (so no `finally` runs there); `prepare`
runs, then `process` unless `prepare` finished the message; raised
exceptions go through the `except` chain; the `finally` block invokes
the guarded `finish`; normal completion returns `MESSAGE_ACK`. -/
def execute (cfg : ExecCfg) (msg : Message) (prep proc : UserStep) :
    Except PyExc ExecResult :=
  if typeRejected cfg msg then
    (if cfg.dropInvalid then
      Except.ok { outcome := Outcome.MESSAGE_DROP, finishCount := 0,
                  trace := dropTrace cfg }
    else
      Except.ok { outcome := Outcome.MESSAGE_EXCEPTION, finishCount := 0,
                  trace := [] })
  else if poisonRejected cfg msg then
    Except.ok { outcome := Outcome.MESSAGE_DROP, finishCount := 0,
                trace := dropTrace cfg }
  else
    let s1 := applyFinishN prep.finishCalls (false, 0)
    match prep.raises with
    | some e => handleWithFinally e s1 [Event.prepareRun]
    | none =>
      if s1.1 then
        Except.ok { outcome := Outcome.MESSAGE_ACK, finishCount := s1.2,
                    trace := [Event.prepareRun] }
      else
        let s2 := applyFinishN proc.finishCalls s1
        match proc.raises with
        | some e =>
            handleWithFinally e s2 [Event.prepareRun, Event.processRun]
        | none =>
            Except.ok { outcome := Outcome.MESSAGE_ACK,
                        finishCount := (applyFinish s2).2,
                        trace := [Event.prepareRun, Event.processRun] }

/-- Full embedding of `Consumer.execute` including the error path of the
poison check: after the type filter (consumer.py 904-918), the
comparison `self.headers[_PROCESSING_EXCEPTIONS] >=
self._error_max_retry` at line 922 runs before the `try` block, so with
a configured threshold and a string-valued counter it raises `TypeError`
that escapes `execute` (no Outcome is produced and `finish` never
runs); on every other input `execute` proceeds as above. -/
def executeFull (cfg : ExecCfg) (msg : Message) (prep proc : UserStep) :
    Except PyExc ExecResult :=
  if !typeRejected cfg msg && poisonCheckRaises cfg msg then
    Except.error PyExc.typeError
  else execute cfg msg prep proc

theorem applyFinishN_true (k n : Nat) : applyFinishN k (true, n) = (true, n) := by
  induction k with
  | zero => rfl
  | succ k ih => simpa [applyFinishN, applyFinish] using ih

theorem applyFinishN_false (k : Nat) :
    applyFinishN k (false, 0) = if k = 0 then (false, 0) else (true, 1) := by
  cases k with
  | zero => rfl
  | succ k => simp [applyFinishN, applyFinish, applyFinishN_true]

theorem handleExc_ok (e : PyExc) :
    ∃ o ev, runClauses exceptClauses e = Except.ok (o, ev) ∧
      Event.processRun ∉ ev ∧ Event.prepareRun ∉ ev := by
  cases e <;> exact ⟨_, _, rfl, by decide, by decide⟩

theorem handleWithFinally_char (e : PyExc) (s : Bool × Nat) (t : List Event) :
    ∃ o ev, handleWithFinally e s t = Except.ok
        { outcome := o, finishCount := (applyFinish s).2, trace := t ++ ev } ∧
      Event.processRun ∉ ev ∧ Event.prepareRun ∉ ev := by
  obtain ⟨o, ev, hh, h1, h2⟩ := handleExc_ok e
  refine ⟨o, ev, ?_, h1, h2⟩
  simp [handleWithFinally, hh]

theorem processRun_not_mem_dropTrace (cfg : ExecCfg) :
    Event.processRun ∉ dropTrace cfg := by
  unfold dropTrace
  split <;> decide

theorem prepareRun_not_mem_dropTrace (cfg : ExecCfg) :
    Event.prepareRun ∉ dropTrace cfg := by
  unfold dropTrace
  split <;> decide

/-- Full characterization of one `execute` run, shared by the claim
theorems: it always returns an outcome; the finish hook runs exactly once
on any path that reaches the `try` region and never on the two filter
paths; the trace puts `prepare` strictly before `process`; a `prepare`
that finished the message skips `process`; a firing poison filter
returns `MESSAGE_DROP` without running either callback. -/
theorem execute_char (cfg : ExecCfg) (msg : Message) (prep proc : UserStep) :
    ∃ r, execute cfg msg prep proc = Except.ok r ∧
      r.finishCount
        = (if typeRejected cfg msg || poisonRejected cfg msg then 0 else 1) ∧
      (Event.processRun ∈ r.trace →
        ∃ rest, r.trace = Event.prepareRun :: Event.processRun :: rest) ∧
      (prep.finishCalls ≠ 0 → Event.processRun ∉ r.trace) ∧
      (typeRejected cfg msg = false → poisonRejected cfg msg = true →
        r.outcome = Outcome.MESSAGE_DROP ∧ Event.prepareRun ∉ r.trace ∧
          Event.processRun ∉ r.trace) ∧
      (typeRejected cfg msg = false → poisonRejected cfg msg = false →
        Event.prepareRun ∈ r.trace) := by
  cases htr : typeRejected cfg msg with
  | true =>
    cases hdi : cfg.dropInvalid with
    | true =>
      refine ⟨{ outcome := Outcome.MESSAGE_DROP, finishCount := 0,
                trace := dropTrace cfg }, ?_, ?_, ?_, ?_, ?_, ?_⟩
      · simp [execute, htr, hdi]
      · simp [htr]
      · exact fun hmem => absurd hmem (processRun_not_mem_dropTrace cfg)
      · exact fun _ => processRun_not_mem_dropTrace cfg
      · exact fun h => absurd h (by decide)
      · exact fun h => absurd h (by decide)
    | false =>
      refine ⟨{ outcome := Outcome.MESSAGE_EXCEPTION, finishCount := 0,
                trace := [] }, ?_, ?_, ?_, ?_, ?_, ?_⟩
      · simp [execute, htr, hdi]
      · simp [htr]
      · exact fun hmem => absurd hmem (by decide)
      · exact fun _ => by decide
      · exact fun h => absurd h (by decide)
      · exact fun h => absurd h (by decide)
  | false =>
    cases hpo : poisonRejected cfg msg with
    | true =>
      refine ⟨{ outcome := Outcome.MESSAGE_DROP, finishCount := 0,
                trace := dropTrace cfg }, ?_, ?_, ?_, ?_, ?_, ?_⟩
      · simp [execute, htr, hpo]
      · simp [htr, hpo]
      · exact fun hmem => absurd hmem (processRun_not_mem_dropTrace cfg)
      · exact fun _ => processRun_not_mem_dropTrace cfg
      · exact fun _ _ => ⟨rfl, prepareRun_not_mem_dropTrace cfg,
          processRun_not_mem_dropTrace cfg⟩
      · exact fun _ h => absurd h (by decide)
    | false =>
      by_cases hk : prep.finishCalls = 0
      · cases hpr : prep.raises with
        | some e =>
          obtain ⟨o, ev, hh, h1, h2⟩ :=
            handleWithFinally_char e (false, 0) [Event.prepareRun]
          refine ⟨{ outcome := o, finishCount := 1,
                    trace := [Event.prepareRun] ++ ev }, ?_, ?_, ?_, ?_, ?_,
                  ?_⟩
          · simp [execute, htr, hpo, hpr, applyFinishN_false, hk, hh,
              applyFinish]
          · simp [htr, hpo]
          · exact fun hmem => absurd hmem (by simp [h1])
          · exact fun hne => absurd hk hne
          · exact fun _ h => absurd h (by decide)
          · exact fun _ _ => by simp
        | none =>
          cases hps : proc.raises with
          | none =>
            refine ⟨{ outcome := Outcome.MESSAGE_ACK, finishCount := 1,
                      trace := [Event.prepareRun, Event.processRun] },
                    ?_, ?_, ?_, ?_, ?_, ?_⟩
            · by_cases hk2 : proc.finishCalls = 0 <;>
                simp [execute, htr, hpo, hpr, hps, applyFinishN_false, hk,
                  hk2, applyFinish]
            · simp [htr, hpo]
            · exact fun _ => ⟨[], rfl⟩
            · exact fun hne => absurd hk hne
            · exact fun _ h => absurd h (by decide)
            · exact fun _ _ => by simp
          | some e =>
            by_cases hk2 : proc.finishCalls = 0
            · obtain ⟨o, ev, hh, h1, h2⟩ := handleWithFinally_char e (false, 0)
                [Event.prepareRun, Event.processRun]
              refine ⟨{ outcome := o, finishCount := 1,
                        trace := [Event.prepareRun, Event.processRun] ++ ev },
                      ?_, ?_, ?_, ?_, ?_, ?_⟩
              · simp [execute, htr, hpo, hpr, hps, applyFinishN_false, hk,
                  hk2, hh, applyFinish]
              · simp [htr, hpo]
              · exact fun _ => ⟨ev, by simp⟩
              · exact fun hne => absurd hk hne
              · exact fun _ h => absurd h (by decide)
              · exact fun _ _ => by simp
            · obtain ⟨o, ev, hh, h1, h2⟩ := handleWithFinally_char e (true, 1)
                [Event.prepareRun, Event.processRun]
              refine ⟨{ outcome := o, finishCount := 1,
                        trace := [Event.prepareRun, Event.processRun] ++ ev },
                      ?_, ?_, ?_, ?_, ?_, ?_⟩
              · simp [execute, htr, hpo, hpr, hps, applyFinishN_false, hk,
                  hk2, hh, applyFinish]
              · simp [htr, hpo]
              · exact fun _ => ⟨ev, by simp⟩
              · exact fun hne => absurd hk hne
              · exact fun _ h => absurd h (by decide)
              · exact fun _ _ => by simp
      · cases hpr : prep.raises with
        | some e =>
          obtain ⟨o, ev, hh, h1, h2⟩ :=
            handleWithFinally_char e (true, 1) [Event.prepareRun]
          refine ⟨{ outcome := o, finishCount := 1,
                    trace := [Event.prepareRun] ++ ev }, ?_, ?_, ?_, ?_, ?_,
                  ?_⟩
          · simp [execute, htr, hpo, hpr, applyFinishN_false, hk, hh,
              applyFinish]
          · simp [htr, hpo]
          · exact fun hmem => absurd hmem (by simp [h1])
          · exact fun _ => by simp [h1]
          · exact fun _ h => absurd h (by decide)
          · exact fun _ _ => by simp
        | none =>
          refine ⟨{ outcome := Outcome.MESSAGE_ACK, finishCount := 1,
                    trace := [Event.prepareRun] }, ?_, ?_, ?_, ?_, ?_, ?_⟩
          · simp [execute, htr, hpo, hpr, applyFinishN_false, hk]
          · simp [htr, hpo]
          · exact fun hmem => absurd hmem (by decide)
          · exact fun _ => by decide
          · exact fun _ h => absurd h (by decide)
          · exact fun _ _ => by decide

/-- The concrete poison message used by the C1 counterexample: its retry
counter (5) is at or above the configured threshold (1). -/
def msgC1 : Message :=
  { exchange := "orders", routingKey := "rk",
    properties := { headers := some [(processingExceptionsKey, HVal.int 5)] } }

/-- C1: counterexample.  A poison-dropped message (retry counter 5,
threshold 1) returns the `DROP` outcome with the finish hook never
running: the type-filter and poison-drop paths return before the
`try`/`finally` region, so `finish` is invoked zero times there, not
exactly once. -/
theorem C1_counterexample :
    executeFull { errorMaxRetry := some 1 } msgC1 {} {}
      = Except.ok { outcome := Outcome.MESSAGE_DROP, finishCount := 0,
                    trace := [] } := by
  rfl

/-- C1 (amended): when the poison-check comparison is well-typed (no
configured threshold together with a string-valued counter header),
`execute` returns exactly one outcome, and the finish hook is invoked
exactly once on every path that reaches the `prepare`/`process` region
(normal completion or any caught exception) but zero times on the
type-filter-rejection and poison-message-drop paths, which return before
the `try`/`finally` block; when the type filter passes and the
comparison is between a string counter and a configured threshold, the
`TypeError` it raises at consumer.py 922 escapes `execute` before the
`try`, so no Outcome is returned and `finish` never runs. -/
theorem C1_amended (cfg : ExecCfg) (msg : Message) (prep proc : UserStep) :
    (poisonCheckRaises cfg msg = false →
      ∃ r, executeFull cfg msg prep proc = Except.ok r ∧
        r.finishCount
          = (if typeRejected cfg msg || poisonRejected cfg msg then 0
             else 1)) ∧
    (typeRejected cfg msg = false → poisonCheckRaises cfg msg = true →
      executeFull cfg msg prep proc = Except.error PyExc.typeError) := by
  constructor
  · intro hsafe
    have hfull : executeFull cfg msg prep proc
        = execute cfg msg prep proc := by
      simp [executeFull, hsafe]
    obtain ⟨r, h1, h2, -, -, -, -⟩ := execute_char cfg msg prep proc
    exact ⟨r, hfull.trans h1, h2⟩
  · intro ht hraise
    simp [executeFull, ht, hraise]

/-- The message with a string-valued retry counter used by the C1
witness: the poison comparison raises `TypeError` on it. -/
def msgC1str : Message :=
  { exchange := "orders", routingKey := "rk",
    properties := { headers := some [(processingExceptionsKey,
      HVal.str "3")] } }

/-- C1 witness: a default configuration reaches the prepare/process
region with exactly one finish-hook run, and a configured threshold with
a string-valued counter makes the poison comparison raise `TypeError`
with no Outcome, instantiating both halves of the amended theorem. -/
theorem C1_witness :
    (executeFull {} {} {} {}).map ExecResult.finishCount = Except.ok 1 ∧
    executeFull { errorMaxRetry := some 1 } msgC1str {} {}
      = Except.error PyExc.typeError := by
  constructor
  · obtain ⟨r, h1, h2⟩ := (C1_amended {} {} {} {}).1 (by decide)
    rw [h1]
    simp only [Except.map]
    have hc : (if typeRejected ({} : ExecCfg) ({} : Message)
        || poisonRejected {} {} then 0 else 1) = 1 := by decide
    rw [h2, hc]
  · exact (C1_amended { errorMaxRetry := some 1 } msgC1str {} {}).2
      (by decide) (by decide)

/-- C3: for every configuration, message, and behaviour of `prepare` and
`process` (including raising any exception of the Python `Exception`
taxonomy), the `except` chain of `execute` catches the exception and
`execute` returns an outcome; no exception propagates to its caller. -/
theorem C3_no_exception_escapes (cfg : ExecCfg) (msg : Message)
    (prep proc : UserStep) :
    ∃ r, execute cfg msg prep proc = Except.ok r := by
  obtain ⟨r, h1, -⟩ := execute_char cfg msg prep proc
  exact ⟨r, h1⟩

/-- C5: with a configured (truthy) maximum-retry threshold and an integer
retry-counter header, a counter at or above the threshold makes `execute`
return `DROP` without running `prepare` or `process`, while a counter of
threshold minus one does not fire the poison check and execution reaches
`prepare`. -/
theorem C5_poison_boundary (cfg : ExecCfg) (msg : Message)
    (prep proc : UserStep) (m c : Int)
    (hm : cfg.errorMaxRetry = some m) (hm0 : m ≠ 0)
    (hc : dget (headersOrEmpty msg.properties) processingExceptionsKey
      = some (HVal.int c))
    (ht : typeRejected cfg msg = false) :
    (m ≤ c → ∃ r, execute cfg msg prep proc = Except.ok r ∧
      r.outcome = Outcome.MESSAGE_DROP ∧ Event.prepareRun ∉ r.trace ∧
      Event.processRun ∉ r.trace) ∧
    (c = m - 1 → poisonRejected cfg msg = false ∧
      ∃ r, execute cfg msg prep proc = Except.ok r ∧
        Event.prepareRun ∈ r.trace) := by
  constructor
  · intro hge
    have hpo : poisonRejected cfg msg = true := by
      simp [poisonRejected, hm, hm0, hc, hge]
    obtain ⟨r, h1, -, -, -, h5, -⟩ := execute_char cfg msg prep proc
    obtain ⟨ho, hp1, hp2⟩ := h5 ht hpo
    exact ⟨r, h1, ho, hp1, hp2⟩
  · intro hlt
    have hnle : ¬m ≤ c := by omega
    have hpo : poisonRejected cfg msg = false := by
      simp [poisonRejected, hm, hm0, hc, hnle]
    obtain ⟨r, h1, -, -, -, -, h6⟩ := execute_char cfg msg prep proc
    exact ⟨hpo, r, h1, h6 ht hpo⟩

/-- The configuration used by the C5 witness: threshold 2. -/
def cfgC5 : ExecCfg := { errorMaxRetry := some 2 }

/-- The concrete message used by the C5 witness: retry counter 2, exactly
at the threshold. -/
def msgC5 : Message :=
  { exchange := "orders", routingKey := "rk",
    properties := { headers := some [(processingExceptionsKey, HVal.int 2)] } }

/-- C5 witness: threshold 2 and counter 2 (the boundary) drop the
message, instantiating the theorem at concrete inputs. -/
theorem C5_witness :
    (execute cfgC5 msgC5 {} {}).map ExecResult.outcome
      = Except.ok Outcome.MESSAGE_DROP := by
  obtain ⟨r, h1, ho, -, -⟩ :=
    (C5_poison_boundary cfgC5 msgC5 {} {} 2 2 rfl (by decide) (by decide)
      (by decide)).1 (by decide)
  rw [h1]
  simp [Except.map, ho]

/-- C9: for every configuration, message, and callback behaviour,
`prepare` strictly precedes `process` in the trace whenever `process`
runs at all, and a `prepare` that called `finish` (marking the message
finished) prevents `process` from ever running. -/
theorem C9_prepare_before_process (cfg : ExecCfg) (msg : Message)
    (prep proc : UserStep) :
    ∃ r, execute cfg msg prep proc = Except.ok r ∧
      (Event.processRun ∈ r.trace →
        ∃ rest, r.trace = Event.prepareRun :: Event.processRun :: rest) ∧
      (prep.finishCalls ≠ 0 → Event.processRun ∉ r.trace) := by
  obtain ⟨r, h1, -, h3, h4, -⟩ := execute_char cfg msg prep proc
  exact ⟨r, h1, h3, h4⟩

/-- C9 witness: a `prepare` that calls `finish` once leads to a run whose
trace does not contain `process`, instantiating the theorem at concrete
inputs. -/
theorem C9_witness :
    (execute {} {} { finishCalls := 1 } {}).map
        (fun r => decide (Event.processRun ∈ r.trace))
      = Except.ok false := by
  obtain ⟨r, h1, -, h4⟩ :=
    C9_prepare_before_process {} {} { finishCalls := 1 } {}
  have hmem := h4 (by decide)
  rw [h1]
  simp [Except.map, hmem]

/-!
Embedding of the `SmartConsumer` content-negotiation surface
(consumer.py 1341-1613) restricted to what the claims exercise: the
memoization of the `body` property and the outbound
auto-serialization / auto-encoding dispatch of `publish_message` /
`_serialize`.  Codec outputs themselves are abstracted (the claims are
about dispatch, caching and error behaviour, not about JSON encodings);
MIME parameter parsing is elided, the content-type key is taken as the
normalized `type/subtype` string that `ietfparse` would produce.
-/

/-- A Python value as seen by the decode pipeline and truthiness tests. -/
inductive PyVal : Type
  | pstr (s : String)
  | pbytes (b : List Nat)
  | pint (n : Int)
  | plist (l : List PyVal)
  | pnone

/-- Python truthiness of a `PyVal` (empty string/bytes/list, zero and
`None` are falsy). -/
def pyTruthy : PyVal → Bool
  | PyVal.pstr s => !s.isEmpty
  | PyVal.pbytes b => !b.isEmpty
  | PyVal.pint n => decide (n ≠ 0)
  | PyVal.plist l => !l.isEmpty
  | PyVal.pnone => false

/-- Embedding of one read of the `SmartConsumer.body` property
(consumer.py 1407-1419): the cache check is `if self._message_body:`
(Python truthiness, not an is-None test); on a miss the
decompress/deserialize pipeline runs once and its (deterministic
per-message) result `decoded` is stored.  Returns the value read, the
cache afterwards, and the number of pipeline invocations. -/
def bodyGet (decoded : PyVal) (cache : PyVal) : PyVal × PyVal × Nat :=
  if pyTruthy cache then (cache, cache, 0) else (decoded, decoded, 1)

/-- Two successive reads of `body` on the same message, starting from
the cleared cache (`self._message_body = None` after `_clear`); the last
component counts the total codec-pipeline invocations. -/
def bodyGetTwice (decoded : PyVal) : PyVal × PyVal × Nat :=
  let r1 := bodyGet decoded PyVal.pnone
  let r2 := bodyGet decoded r1.2.1
  (r1.1, r2.1, r1.2.2 + r2.2.2)

/-- C4: counterexample.  For a message whose decoded body is falsy (here
the empty string, e.g. an empty JSON string body), the truthiness cache
check fails on the second read and the codec pipeline runs again: two
reads invoke the codecs twice, not at most once. -/
theorem C4_counterexample :
    bodyGetTwice (PyVal.pstr "")
      = (PyVal.pstr "", PyVal.pstr "", 2) := rfl

/-- C4 (amended): whenever the decoded body is truthy (non-empty), the
result is memoized: two reads of `body` on the same message return the
identical cached value and invoke the codec pipeline exactly once;
for a falsy decoded body the same (equal) value is returned but the
pipeline re-runs on each read. -/
theorem C4_amended (decoded : PyVal) (h : pyTruthy decoded = true) :
    bodyGetTwice decoded = (decoded, decoded, 1) := by
  have h0 : pyTruthy PyVal.pnone = false := rfl
  simp [bodyGetTwice, bodyGet, h0, h]

/-- C4 witness: a non-empty decoded body is read twice with a single
pipeline invocation, instantiating the amended theorem. -/
theorem C4_witness :
    pyTruthy (PyVal.pstr "x") = true ∧
    bodyGetTwice (PyVal.pstr "x")
      = (PyVal.pstr "x", PyVal.pstr "x", 1) :=
  ⟨by decide, C4_amended (PyVal.pstr "x") (by decide)⟩

/-- An outbound message body before auto-serialization: text, bytes, or
a structured (non-string) Python object. -/
inductive Body : Type
  | bstr (s : String)
  | bbytes (b : List Nat)
  | bobj (v : PyVal)

/-- The `isinstance(body, (str, bytes, unicode))` test of
`SmartConsumer.publish_message`. -/
def bodyIsString : Body → Bool
  | Body.bstr _ => true
  | Body.bbytes _ => true
  | Body.bobj _ => false

/-- One row of `_SERIALIZATION_MAP`. -/
structure SerializationEntry : Type where
  moduleName : String
  enabled : Bool
  binarySafe : Bool
  commonDispatch : Bool
  deriving DecidableEq

/-- The `_SERIALIZATION_MAP` registry (consumer.py 1243-1316) with the
`enabled` flags as probed at startup for the optional codec libraries
(`u-msgpack-python` for msgpack, `beautifulsoup4`/`lxml` for html and
xml); every other entry is enabled unconditionally. -/
def serializationMap (msgpackEnabled bs4Enabled : Bool) :
    String → Option SerializationEntry
  | "application/json" => some ⟨"json", true, false, true⟩
  | "application/msgpack" => some ⟨"umsgpack", msgpackEnabled, true, true⟩
  | "application/pickle" => some ⟨"pickle", true, true, true⟩
  | "application/x-pickle" => some ⟨"pickle", true, true, true⟩
  | "application/x-plist" => some ⟨"plistlib", true, true, true⟩
  | "application/vnd.python.pickle" => some ⟨"pickle", true, true, true⟩
  | "application/x-vnd.python.pickle" => some ⟨"pickle", true, true, true⟩
  | "text/csv" => some ⟨"csv", true, false, false⟩
  | "text/html" => some ⟨"bs4", bs4Enabled, false, false⟩
  | "text/xml" => some ⟨"bs4", bs4Enabled, false, false⟩
  | "text/yaml" => some ⟨"yaml", true, false, true⟩
  | _ => none

/-- The `_CODEC_MAP` content-encoding registry (consumer.py 1237-1241). -/
def codecMap : String → Option String
  | "bzip2" => some "bz2"
  | "gzip" => some "zlib"
  | "zlib" => some "zlib"
  | _ => none

/-- The `ValueError` raised by the outbound serialization path. -/
inductive PublishError : Type
  | valueError (msg : String)
  deriving DecidableEq

/-- The body actually handed to `basic_publish`, with the codec outputs
abstracted as constructors. -/
inductive OutBody : Type
  | plain (b : Body)
  | serialized (key : String) (v : PyVal)
  | compressed (moduleName : String) (inner : OutBody)

/-- Embedding of `SmartConsumer._serialize` (consumer.py 1595-1613):
a content type missing from the registry raises
`ValueError('Unsupported content-type: ...')`; a disabled entry raises
`ValueError('Disabled content-type: ...')`; otherwise the body is
serialized. -/
def serializeModel (msgpackEnabled bs4Enabled : Bool) (v : PyVal)
    (key : String) : Except PublishError OutBody :=
  match serializationMap msgpackEnabled bs4Enabled key with
  | none => Except.error (PublishError.valueError
      ("Unsupported content-type: " ++ key))
  | some entry =>
      if entry.enabled then Except.ok (OutBody.serialized key v)
      else Except.error (PublishError.valueError
        ("Disabled content-type: " ++ key))

/-- Embedding of the body transformation of
`SmartConsumer.publish_message` (consumer.py 1390-1405): serialize a
non-string body when a truthy `content_type` is declared (unless
`no_serialization`), then compress when `content_encoding` is a key of
`_CODEC_MAP` (unless `no_encoding`).  Note the source has no `else`
raise on the encoding test: an unknown `content_encoding` silently
skips compression. -/
def smartPublishBody (msgpackEnabled bs4Enabled noSerialization noEncoding :
    Bool) (body : Body) (contentType contentEncoding : Option String) :
    Except PublishError OutBody :=
  let step1 : Except PublishError OutBody :=
    if !noSerialization && !bodyIsString body && strOptTruthy contentType then
      match body with
      | Body.bobj v =>
          serializeModel msgpackEnabled bs4Enabled v (contentType.getD "")
      | b => Except.ok (OutBody.plain b)
    else Except.ok (OutBody.plain body)
  match step1 with
  | Except.error err => Except.error err
  | Except.ok b1 =>
      if !noEncoding then
        match contentEncoding.bind codecMap with
        | some m => Except.ok (OutBody.compressed m b1)
        | none => Except.ok b1
      else Except.ok b1

/-- C7: evaluation at the failing input.  A structured body declared as
`application/json` with the unknown encoding `snappy` is serialized and
then published with no error and no compression: the encoding half of
the claim (and of the method's own docstring, consumer.py 1366-1368)
does not hold, while the content-type half does: an unknown or disabled
content type raises the configuration `ValueError`. -/
theorem C7_unknown_encoding_silent :
    smartPublishBody true true false false (Body.bobj (PyVal.pint 1))
        (some "application/json") (some "snappy")
      = Except.ok (OutBody.serialized "application/json" (PyVal.pint 1)) ∧
    smartPublishBody true true false false (Body.bobj (PyVal.pint 1))
        (some "application/unknown") none
      = Except.error (PublishError.valueError
          "Unsupported content-type: application/unknown") ∧
    smartPublishBody false true false false (Body.bobj (PyVal.pint 1))
        (some "application/msgpack") none
      = Except.error (PublishError.valueError
          "Disabled content-type: application/msgpack") :=
  ⟨rfl, rfl, rfl⟩

/-!
Embedding of `Consumer.rpc_reply` (consumer.py 626-688).

The caller-supplied properties dict is embedded as an association list;
`properties = properties or {}` together with the in-place `properties[k]
= ...` writes is embedded by returning, alongside the publish result,
the state of the CALLER's dict after the call: when the caller's dict is
non-empty, the Python name `properties` aliases it and the writes land
in it; when it is empty (falsy), `or` replaces it with a fresh dict and
the caller's dict is left untouched.
-/

/-- A value stored in an outbound properties dict. -/
inductive PVal : Type
  | pvStr (s : String)
  | pvInt (n : Int)
  deriving DecidableEq

/-- Python truthiness of a properties value. -/
def pvTruthy : PVal → Bool
  | PVal.pvStr s => !s.isEmpty
  | PVal.pvInt n => decide (n ≠ 0)

/-- Embedding of `properties.get(key)` used in a boolean position:
`not properties.get(key)` is true when the key is absent or falsy. -/
def dgetTruthy (d : List (String × PVal)) (k : String) : Bool :=
  match dget d k with
  | some v => pvTruthy v
  | none => false

theorem dgetTruthy_congr {d d' : List (String × PVal)} {k : String}
    (h : dget d k = dget d' k) : dgetTruthy d k = dgetTruthy d' k := by
  simp [dgetTruthy, h]

/-- `if not properties.get('app_id'): properties['app_id'] = self.name`. -/
def rpcStepAppId (consumerName : String) (props : List (String × PVal)) :
    List (String × PVal) :=
  if dgetTruthy props "app_id" then props
  else dset props "app_id" (PVal.pvStr consumerName)

/-- `if not properties.get('correlation_id') and self.message_id:
properties['correlation_id'] = self.message_id`. -/
def rpcStepCorrelation (msg : Message) (props : List (String × PVal)) :
    List (String × PVal) :=
  if !dgetTruthy props "correlation_id"
      && strOptTruthy msg.properties.messageId then
    dset props "correlation_id" (PVal.pvStr (msg.properties.messageId.getD ""))
  else props

/-- `if not properties.get('message_id'): properties['message_id'] =
str(uuid.uuid4())`. -/
def rpcStepMessageId (newUuid : String) (props : List (String × PVal)) :
    List (String × PVal) :=
  if dgetTruthy props "message_id" then props
  else dset props "message_id" (PVal.pvStr newUuid)

/-- `if not properties.get('timestamp'): properties['timestamp'] =
int(time.time())`. -/
def rpcStepTimestamp (now : Int) (props : List (String × PVal)) :
    List (String × PVal) :=
  if dgetTruthy props "timestamp" then props
  else dset props "timestamp" (PVal.pvInt now)

/-- The four sequential defaulting steps of `rpc_reply`
(consumer.py 678-685). -/
def rpcDefaultProps (consumerName : String) (msg : Message) (newUuid : String)
    (now : Int) (props : List (String × PVal)) : List (String × PVal) :=
  rpcStepTimestamp now (rpcStepMessageId newUuid
    (rpcStepCorrelation msg (rpcStepAppId consumerName props)))

theorem dget_rpcStepAppId_ne (consumerName : String)
    (props : List (String × PVal)) (k : String) (h : "app_id" ≠ k) :
    dget (rpcStepAppId consumerName props) k = dget props k := by
  unfold rpcStepAppId
  split
  · rfl
  · exact dget_dset_ne _ _ _ _ h

theorem dget_rpcStepCorrelation_ne (msg : Message)
    (props : List (String × PVal)) (k : String) (h : "correlation_id" ≠ k) :
    dget (rpcStepCorrelation msg props) k = dget props k := by
  unfold rpcStepCorrelation
  split
  · exact dget_dset_ne _ _ _ _ h
  · rfl

theorem dget_rpcStepMessageId_ne (newUuid : String)
    (props : List (String × PVal)) (k : String) (h : "message_id" ≠ k) :
    dget (rpcStepMessageId newUuid props) k = dget props k := by
  unfold rpcStepMessageId
  split
  · rfl
  · exact dget_dset_ne _ _ _ _ h

theorem dget_rpcStepTimestamp_ne (now : Int)
    (props : List (String × PVal)) (k : String) (h : "timestamp" ≠ k) :
    dget (rpcStepTimestamp now props) k = dget props k := by
  unfold rpcStepTimestamp
  split
  · rfl
  · exact dget_dset_ne _ _ _ _ h

theorem dget_rpcDefaultProps_app_id (consumerName : String) (msg : Message)
    (newUuid : String) (now : Int) (props : List (String × PVal))
    (h : dgetTruthy props "app_id" = false) :
    dget (rpcDefaultProps consumerName msg newUuid now props) "app_id"
      = some (PVal.pvStr consumerName) := by
  unfold rpcDefaultProps
  rw [dget_rpcStepTimestamp_ne _ _ _ (by decide),
      dget_rpcStepMessageId_ne _ _ _ (by decide),
      dget_rpcStepCorrelation_ne _ _ _ (by decide)]
  unfold rpcStepAppId
  rw [h]
  simp [dget_dset_self]

theorem dget_rpcDefaultProps_correlation (consumerName : String)
    (msg : Message) (newUuid : String) (now : Int)
    (props : List (String × PVal))
    (h1 : dgetTruthy props "correlation_id" = false)
    (h2 : strOptTruthy msg.properties.messageId = true) :
    dget (rpcDefaultProps consumerName msg newUuid now props) "correlation_id"
      = some (PVal.pvStr (msg.properties.messageId.getD "")) := by
  unfold rpcDefaultProps
  rw [dget_rpcStepTimestamp_ne _ _ _ (by decide),
      dget_rpcStepMessageId_ne _ _ _ (by decide)]
  unfold rpcStepCorrelation
  have hc : dgetTruthy (rpcStepAppId consumerName props) "correlation_id"
      = false := by
    rw [dgetTruthy_congr (dget_rpcStepAppId_ne _ _ _ (by decide))]
    exact h1
  rw [hc, h2]
  simp [dget_dset_self]

theorem dget_rpcDefaultProps_message_id (consumerName : String)
    (msg : Message) (newUuid : String) (now : Int)
    (props : List (String × PVal))
    (h : dgetTruthy props "message_id" = false) :
    dget (rpcDefaultProps consumerName msg newUuid now props) "message_id"
      = some (PVal.pvStr newUuid) := by
  unfold rpcDefaultProps
  rw [dget_rpcStepTimestamp_ne _ _ _ (by decide)]
  unfold rpcStepMessageId
  have hm : dgetTruthy (rpcStepCorrelation msg (rpcStepAppId consumerName
      props)) "message_id" = false := by
    rw [dgetTruthy_congr (dget_rpcStepCorrelation_ne _ _ _ (by decide)),
        dgetTruthy_congr (dget_rpcStepAppId_ne _ _ _ (by decide))]
    exact h
  rw [hm]
  simp [dget_dset_self]

theorem dget_rpcDefaultProps_timestamp (consumerName : String)
    (msg : Message) (newUuid : String) (now : Int)
    (props : List (String × PVal))
    (h : dgetTruthy props "timestamp" = false) :
    dget (rpcDefaultProps consumerName msg newUuid now props) "timestamp"
      = some (PVal.pvInt now) := by
  unfold rpcDefaultProps
  unfold rpcStepTimestamp
  have hm : dgetTruthy (rpcStepMessageId newUuid (rpcStepCorrelation msg
      (rpcStepAppId consumerName props))) "timestamp" = false := by
    rw [dgetTruthy_congr (dget_rpcStepMessageId_ne _ _ _ (by decide)),
        dgetTruthy_congr (dget_rpcStepCorrelation_ne _ _ _ (by decide)),
        dgetTruthy_congr (dget_rpcStepAppId_ne _ _ _ (by decide))]
    exact h
  rw [hm]
  simp [dget_dset_self]

/-- The publish issued by `rpc_reply` through `publish_message`. -/
structure RpcPublish : Type where
  exchange : String
  routingKey : String
  props : List (String × PVal)
  body : List Nat
  deriving DecidableEq

/-- `exchange or self.exchange`: the explicit argument unless it is
falsy (absent or empty). -/
def rpcTargetExchange (exchangeArg : Option String) (msg : Message) :
    String :=
  match exchangeArg with
  | some e => if e.isEmpty then msg.exchange else e
  | none => msg.exchange

/-- `reply_to or self.reply_to`: the explicit argument unless it is
falsy, else the inbound message's `reply_to` property. -/
def rpcTargetRoutingKey (replyToArg : Option String) (msg : Message) :
    String :=
  match replyToArg with
  | some r => if r.isEmpty then msg.properties.replyTo.getD "" else r
  | none => msg.properties.replyTo.getD ""

/-- Embedding of `Consumer.rpc_reply` (consumer.py 626-688): when
neither an explicit `reply_to` argument nor the inbound `reply_to`
property is set, `ValueError` is raised before any defaulting or
publishing; otherwise the four defaults are applied and the message is
published.  The second component is the caller's properties dict after
the call (see the section comment: a non-empty dict is mutated in place,
an empty one is replaced by a fresh dict and left untouched). -/
def rpcReply (consumerName : String) (msg : Message) (newUuid : String)
    (now : Int) (body : List Nat) (callerProps : List (String × PVal))
    (exchangeArg replyToArg : Option String) :
    Except String RpcPublish × List (String × PVal) :=
  if replyToArg = none ∧ msg.properties.replyTo = none then
    (Except.error "Missing reply_to routing key", callerProps)
  else
    let finalProps := rpcDefaultProps consumerName msg newUuid now callerProps
    (Except.ok { exchange := rpcTargetExchange exchangeArg msg,
                 routingKey := rpcTargetRoutingKey replyToArg msg,
                 props := finalProps, body := body },
     if callerProps.isEmpty then callerProps else finalProps)

/-- C8: `rpc_reply` with no explicit `reply_to` and no inbound `replyTo`
fails with the input-validation `ValueError` before any publish is
attempted; when a routing key is available it publishes with the
defaulted properties: an unset (or falsy) `app_id` becomes the consumer
name, an unset `correlation_id` becomes the inbound `messageId` when
that is set, an unset `message_id` becomes a fresh unique id, and an
unset `timestamp` becomes the current time. -/
theorem C8_rpc_reply (consumerName : String) (msg : Message)
    (newUuid : String) (now : Int) (body : List Nat)
    (callerProps : List (String × PVal))
    (exchangeArg replyToArg : Option String) :
    ((replyToArg = none ∧ msg.properties.replyTo = none) →
      rpcReply consumerName msg newUuid now body callerProps exchangeArg
          replyToArg
        = (Except.error "Missing reply_to routing key", callerProps)) ∧
    (¬(replyToArg = none ∧ msg.properties.replyTo = none) →
      (rpcReply consumerName msg newUuid now body callerProps exchangeArg
          replyToArg).1
        = Except.ok
            { exchange := rpcTargetExchange exchangeArg msg,
              routingKey := rpcTargetRoutingKey replyToArg msg,
              props := rpcDefaultProps consumerName msg newUuid now
                callerProps,
              body := body }) ∧
    (dgetTruthy callerProps "app_id" = false →
      dget (rpcDefaultProps consumerName msg newUuid now callerProps)
          "app_id" = some (PVal.pvStr consumerName)) ∧
    (dgetTruthy callerProps "correlation_id" = false →
      strOptTruthy msg.properties.messageId = true →
      dget (rpcDefaultProps consumerName msg newUuid now callerProps)
          "correlation_id"
        = some (PVal.pvStr (msg.properties.messageId.getD ""))) ∧
    (dgetTruthy callerProps "message_id" = false →
      dget (rpcDefaultProps consumerName msg newUuid now callerProps)
          "message_id" = some (PVal.pvStr newUuid)) ∧
    (dgetTruthy callerProps "timestamp" = false →
      dget (rpcDefaultProps consumerName msg newUuid now callerProps)
          "timestamp" = some (PVal.pvInt now)) := by
  refine ⟨fun h => ?_, fun h => ?_,
    fun h => dget_rpcDefaultProps_app_id _ _ _ _ _ h,
    fun h1 h2 => dget_rpcDefaultProps_correlation _ _ _ _ _ h1 h2,
    fun h => dget_rpcDefaultProps_message_id _ _ _ _ _ h,
    fun h => dget_rpcDefaultProps_timestamp _ _ _ _ _ h⟩
  · obtain ⟨ha, hb⟩ := h
    subst ha
    simp [rpcReply, hb]
  · simp [rpcReply, h]

/-- The inbound message used by the C8 and C10 concrete instances: it
carries a `messageId` but no `replyTo`. -/
def msgC8 : Message :=
  { exchange := "ex1", routingKey := "rk0",
    properties := { messageId := some "mid-1" } }

/-- C8 witness: with an explicit reply-to routing key, an empty
properties dict and a message carrying `messageId`, the published
properties hold all four defaults, instantiating the theorem. -/
theorem C8_witness :
    (rpcReply "ExampleConsumer" msgC8 "uuid-1" 1700000000 [1] [] none
        (some "reply.key")).1
      = Except.ok { exchange := "ex1", routingKey := "reply.key",
                    props := [("app_id", PVal.pvStr "ExampleConsumer"),
                              ("correlation_id", PVal.pvStr "mid-1"),
                              ("message_id", PVal.pvStr "uuid-1"),
                              ("timestamp", PVal.pvInt 1700000000)],
                    body := [1] } := by
  have h := (C8_rpc_reply "ExampleConsumer" msgC8 "uuid-1" 1700000000 [1] []
    none (some "reply.key")).2.1 (by simp)
  rw [h]
  rfl

/-- The inbound message used by the C10 concrete instances. -/
def msgC10 : Message :=
  { exchange := "ex1", routingKey := "rk0",
    properties := { messageId := some "mid-1" } }

/-- C10: counterexample.  `properties = properties or {}` replaces an
EMPTY caller-supplied dict (falsy in Python) by a fresh dict, so the
defaults are written into the fresh dict only: after the call the
caller's empty dict contains none of the added entries, while the
published properties do contain them. -/
theorem C10_counterexample :
    (rpcReply "ExampleConsumer" msgC10 "uuid-1" 1700000000 [1] [] none
        (some "reply.key")).2 = [] ∧
    (rpcReply "ExampleConsumer" msgC10 "uuid-1" 1700000000 [1] [] none
        (some "reply.key")).1.map (fun p => dget p.props "app_id")
      = Except.ok (some (PVal.pvStr "ExampleConsumer")) :=
  ⟨rfl, rfl⟩

/-- C10 (amended): for every call that passes a NON-empty properties
dict and resolves a routing key, the defaulted entries are written into
the caller's dict in place (after the call the caller's dict is exactly
the defaulted, published dict); a caller-supplied EMPTY dict is falsy,
is replaced by a fresh dict, and is left unmodified. -/
theorem C10_amended (consumerName : String) (msg : Message)
    (newUuid : String) (now : Int) (body : List Nat)
    (callerProps : List (String × PVal))
    (exchangeArg replyToArg : Option String) :
    (callerProps ≠ [] →
      ¬(replyToArg = none ∧ msg.properties.replyTo = none) →
      (rpcReply consumerName msg newUuid now body callerProps exchangeArg
          replyToArg).2
        = rpcDefaultProps consumerName msg newUuid now callerProps) ∧
    (callerProps = [] →
      (rpcReply consumerName msg newUuid now body callerProps exchangeArg
          replyToArg).2 = []) := by
  constructor
  · intro hne hcond
    simp [rpcReply, hcond, hne]
  · intro he
    subst he
    by_cases hcond : (replyToArg = none ∧ msg.properties.replyTo = none) <;>
      simp [rpcReply, hcond]

/-- C10 witness: a non-empty caller dict receives the four defaults in
place, instantiating the amended theorem at concrete inputs. -/
theorem C10_witness :
    (rpcReply "ExampleConsumer" msgC10 "uuid-1" 1700000000 [1]
        [("priority", PVal.pvInt 3)] none (some "reply.key")).2
      = [("priority", PVal.pvInt 3),
         ("app_id", PVal.pvStr "ExampleConsumer"),
         ("correlation_id", PVal.pvStr "mid-1"),
         ("message_id", PVal.pvStr "uuid-1"),
         ("timestamp", PVal.pvInt 1700000000)] := by
  have h := (C10_amended "ExampleConsumer" msgC10 "uuid-1" 1700000000 [1]
    [("priority", PVal.pvInt 3)] none (some "reply.key")).1 (by simp)
    (by simp)
  rw [h]
  rfl

end Rejected
